import Mathlib

/-!
Verification development for the sensors-data-pipeline repository.

The Python source is shallowly embedded: the relational stores are lists of
rows, SQL `INSERT .. ON CONFLICT DO NOTHING` becomes a fold over the incoming
batch, the `SELECT .. ORDER BY timestamp LIMIT .. OFFSET ..` query becomes
filter / insertion-sort / drop / take, pandas column operations become
error-propagating maps over lists, and the async read generator becomes a
fuel-indexed loop producing the list of yielded batches together with the
number of store fetches and the log lines emitted.

Machine-level types are abstracted as follows: sensor UUIDs are `Nat`,
timestamps are `Int` minutes, float sensor values are `Int` (no claim touches
float arithmetic).  Timestamp strings are embedded by their parse outcome
(`RawTimestamp`): a naive wall-clock value, an aware value carrying a UTC
offset, or a malformed string on which `pd.to_datetime(format="ISO8601")`
raises.  The Europe/Berlin timezone rules are modelled for the representative
year 2024 (minutes since 2024-01-01 00:00 local wall time): DST starts at
wall 2024-03-31 02:00 and ends at wall 2024-10-27 03:00, giving the
ambiguous wall-clock hour [02:00, 03:00) on 2024-10-27.
-/

deriving instance DecidableEq for Except

namespace SensorsDataPipeline

/-! ## Data model (db/models/main/sensor_info.py, db/models/timescale/sensor_measurement.py) -/

/-- Row of the `sensor_info` table: `sensor_uuid` primary key, `sensor_name`. -/
structure SensorInfo where
  sensor_uuid : Nat
  sensor_name : String
deriving DecidableEq, Repr

/-- Row of the `sensor_measurement` hypertable: unique constraint on
`(sensor_uuid, timestamp)`; the timestamp column is `TIMESTAMP(timezone=True)`,
so the stored value is the UTC instant (modelled as `Int` minutes). -/
structure SensorMeasurement where
  sensor_uuid : Nat
  timestamp : Int
  sensor_value : Int
deriving DecidableEq, Repr

/-! ## Upsert writer (db/repository.py: store_sensors_data / store_sensors_measurements) -/

/-- PostgreSQL `INSERT .. VALUES batch ON CONFLICT (key) DO NOTHING` against a
store held as a list of rows: rows are appended in batch order, and a row whose
key already occurs (in the pre-existing store or earlier in the same statement)
is silently discarded. -/
def insert_on_conflict_do_nothing {α κ : Type} [DecidableEq κ] (key : α → κ)
    (store : List α) (values : List α) : List α :=
  values.foldl (fun acc r => if key r ∈ acc.map key then acc else acc ++ [r]) store

/-- `DatabaseRepository.store_sensors_data`: bulk insert keyed on `sensor_uuid`,
conflicts skipped (no overwrite). -/
def store_sensors_data (store : List SensorInfo) (sensor_records : List SensorInfo) :
    List SensorInfo :=
  insert_on_conflict_do_nothing (fun s => s.sensor_uuid) store sensor_records

/-- `DatabaseRepository.store_sensors_measurements`: bulk insert keyed on
`(sensor_uuid, timestamp)`, conflicts skipped (no overwrite). -/
def store_sensors_measurements (store : List SensorMeasurement)
    (sensors_measurements : List SensorMeasurement) : List SensorMeasurement :=
  insert_on_conflict_do_nothing (fun m => (m.sensor_uuid, m.timestamp)) store
    sensors_measurements

/-! ## Sensor lookup (db/repository.py: get_sensor_by_sensor_name) -/

/-- SQLAlchemy `Result.scalar_one_or_none`: `none` for zero rows, the row for
exactly one, and `MultipleResultsFound` raised for more than one. -/
def scalar_one_or_none {α : Type} (rows : List α) : Except String (Option α) :=
  match rows with
  | [] => Except.ok none
  | [a] => Except.ok (some a)
  | _ => Except.error "MultipleResultsFound"

/-- `DatabaseRepository.get_sensor_by_sensor_name`:
`SELECT * FROM sensor_info WHERE sensor_name = name`, then `scalar_one_or_none`. -/
def get_sensor_by_sensor_name (sensors : List SensorInfo) (sensor_name : String) :
    Except String (Option SensorInfo) :=
  scalar_one_or_none (sensors.filter (fun s => s.sensor_name == sensor_name))

/-! ## Measurement range query (db/repository.py:
get_sensor_measurements_by_sensor_uuid_and_time_range) -/

/-- `WHERE sensor_uuid = uuid AND timestamp >= start AND timestamp <= end`. -/
def matching_measurements (db : List SensorMeasurement) (sensor_uuid : Nat)
    (start_timestamp end_timestamp : Int) : List SensorMeasurement :=
  db.filter (fun m =>
    m.sensor_uuid == sensor_uuid && decide (start_timestamp ≤ m.timestamp)
      && decide (m.timestamp ≤ end_timestamp))

/-- The `ORDER BY timestamp` comparison on measurement rows. -/
def ts_le (a b : SensorMeasurement) : Prop := a.timestamp ≤ b.timestamp

instance : DecidableRel ts_le :=
  fun a b => inferInstanceAs (Decidable (a.timestamp ≤ b.timestamp))

instance : IsTotal SensorMeasurement ts_le :=
  ⟨fun a b => Int.le_total a.timestamp b.timestamp⟩

instance : IsTrans SensorMeasurement ts_le :=
  ⟨fun _ _ _ hab hbc => le_trans hab hbc⟩

/-- `ORDER BY timestamp` modelled as a (stable) insertion sort on the
timestamp column; ties between distinct rows are not further disambiguated,
matching SQL. -/
def order_by_timestamp (l : List SensorMeasurement) : List SensorMeasurement :=
  List.insertionSort ts_le l

/-- The fully ordered projected result set of the range query, before
`LIMIT`/`OFFSET`: filter, order by timestamp, project to
`(sensor_value, timestamp)`. -/
def sorted_query (db : List SensorMeasurement) (sensor_uuid : Nat)
    (start_timestamp end_timestamp : Int) : List (Int × Int) :=
  (order_by_timestamp (matching_measurements db sensor_uuid start_timestamp
    end_timestamp)).map (fun m => (m.sensor_value, m.timestamp))

/-- `DatabaseRepository.get_sensor_measurements_by_sensor_uuid_and_time_range`:
the ordered range query with `OFFSET offset LIMIT batch_size`. -/
def get_sensor_measurements_by_sensor_uuid_and_time_range
    (db : List SensorMeasurement) (sensor_uuid : Nat)
    (start_timestamp end_timestamp : Int) (offset : Nat)
    (batch_size : Nat := 1000) : List (Int × Int) :=
  ((sorted_query db sensor_uuid start_timestamp end_timestamp).drop offset).take
    batch_size

/-! ## Read path (domain/service.py: get_sensor_readings) -/

/-- Observable outcome of the `get_sensor_readings` async generator: the
DataFrame batches yielded (each a list of `(sensor_value, timestamp)` rows),
the number of round-trips to the measurement store, and the log lines emitted. -/
structure ReadStream where
  batches : List (List (Int × Int))
  fetches : Nat
  logs : List String
deriving DecidableEq, Repr

/-- The `while True` fetch loop of `get_sensor_readings`, indexed by fuel (the
Python loop terminates because each non-empty fetch strictly advances the
offset).  Mirrors the source: compute the remaining quota when `page_size` is
set and break when it is exhausted; fetch at the current offset with batch size
`min 500 remaining` (or 500 when unpaged); stop on an empty fetch, logging when
nothing at all was yielded; otherwise yield the batch and advance the offset
and running total by the number of rows returned. -/
def get_sensor_readings_loop (db : List SensorMeasurement) (sensor_uuid : Nat)
    (start_timestamp end_timestamp : Int) (page_size : Option Nat)
    (offset total_yielded fuel : Nat) : ReadStream :=
  match fuel with
  | 0 => ⟨[], 0, []⟩
  | fuel + 1 =>
    let step : Option Nat :=
      match page_size with
      | some ps => if ps - total_yielded = 0 then none else some (min 500 (ps - total_yielded))
      | none => some 500
    match step with
    | none => ⟨[], 0, []⟩
    | some current_batch_size =>
      let sensor_measurements := get_sensor_measurements_by_sensor_uuid_and_time_range
        db sensor_uuid start_timestamp end_timestamp offset current_batch_size
      if sensor_measurements.isEmpty then
        ⟨[], 1,
          if total_yielded = 0 then ["No sensor readings found for the given time range."]
          else []⟩
      else
        let rest := get_sensor_readings_loop db sensor_uuid start_timestamp end_timestamp
          page_size (offset + sensor_measurements.length)
          (total_yielded + sensor_measurements.length) fuel
        ⟨sensor_measurements :: rest.batches, rest.fetches + 1, rest.logs⟩

/-- Python truthiness of an `int | None` pagination parameter: `None` and `0`
are falsy. -/
def truthy : Option Nat → Bool
  | none => false
  | some n => !(n == 0)

/-- `SensorDataService.get_sensor_readings`: resolve the sensor name (an
unknown name logs and yields nothing), compute the initial offset as
`(page_number - 1) * page_size` if both parameters are truthy else `0`, then
run the fetch loop.  `db.length + 1` fuel over-approximates the number of loop
iterations, so the model equals the Python loop's behaviour. -/
def get_sensor_readings (sensors : List SensorInfo) (db : List SensorMeasurement)
    (sensor_name : String) (start_timestamp end_timestamp : Int)
    (page_number page_size : Option Nat) : Except String ReadStream :=
  match get_sensor_by_sensor_name sensors sensor_name with
  | Except.error e => Except.error e
  | Except.ok none =>
    Except.ok ⟨[], 0, ["Sensor " ++ sensor_name ++ " is not found."]⟩
  | Except.ok (some sensor) =>
    let offset : Nat :=
      if truthy page_number && truthy page_size then
        (page_number.getD 0 - 1) * page_size.getD 0
      else 0
    Except.ok (get_sensor_readings_loop db sensor.sensor_uuid start_timestamp
      end_timestamp page_size offset 0 (db.length + 1))

/-! ## Timestamp normalizer (domain/service.py:
_preprocess_sensors_measurements_timestamps) -/

/-- A raw timestamp cell, embedded by the outcome of
`pd.to_datetime(.., format="ISO8601", utc=False)` on its string: a naive
wall-clock value, a timezone-aware value carrying its UTC offset (minutes), or
a malformed string on which the parser raises `ValueError`. -/
inductive RawTimestamp where
  | naive (wall : Int)
  | aware (wall : Int) (tzOffset : Int)
  | malformed
deriving DecidableEq, Repr

/-- Per-cell behaviour of `pd.to_datetime(.., format="ISO8601", utc=False)`:
well-formed values parse to themselves, malformed strings raise. -/
def pd_to_datetime : RawTimestamp → Except String RawTimestamp
  | RawTimestamp.malformed => Except.error "ValueError: unparseable timestamp"
  | t => Except.ok t

/-- Europe/Berlin 2024, minutes since 2024-01-01 00:00 local wall time:
DST starts at wall 2024-03-31 02:00 (90 full days plus 2 hours). -/
def berlinDstStart : Int := 90 * 1440 + 120

/-- Europe/Berlin 2024: the ambiguous fall-back hour starts at wall
2024-10-27 02:00 (300 full days plus 2 hours); wall times in
`[berlinDstEnd, berlinDstEnd + 60)` occur twice. -/
def berlinDstEnd : Int := 300 * 1440 + 120

/-- The UTC instant of the 2024 fall-back clock change (03:00 CEST becomes
02:00 CET): `berlinDstEnd + 60 - 120`. -/
def berlinChangeUtc : Int := berlinDstEnd - 60

/-- `Timestamp.tz_localize("Europe/Berlin", ambiguous=True)` on a naive wall
time, returning the chosen UTC offset in minutes: CET (+60) outside DST, CEST
(+120) inside, `NonExistentTimeError` in the spring-forward gap, and CEST
(+120, the occurrence before the clock change) in the ambiguous fall-back hour
because `ambiguous=True` selects the DST reading. -/
def tz_localize_berlin (wall : Int) : Except String Int :=
  if wall < berlinDstStart then Except.ok 60
  else if wall < berlinDstStart + 60 then Except.error "NonExistentTimeError"
  else if wall < berlinDstEnd then Except.ok 120
  else if wall < berlinDstEnd + 60 then Except.ok 120
  else Except.ok 60

/-- `localize_if_naive` from `_preprocess_sensors_measurements_timestamps`:
localize a naive timestamp to Europe/Berlin, leave anything else unchanged. -/
def localize_if_naive : RawTimestamp → Except String RawTimestamp
  | RawTimestamp.naive wall =>
    match tz_localize_berlin wall with
    | Except.ok off => Except.ok (RawTimestamp.aware wall off)
    | Except.error e => Except.error e
  | t => Except.ok t

/-- Is the timestamp timezone-aware (`tzinfo is not None`)? -/
def is_aware : RawTimestamp → Bool
  | RawTimestamp.aware _ _ => true
  | _ => false

/-- Modelled from `SensorMeasurement.timestamp`'s `TIMESTAMP(timezone=True)`
column ("timestamps are stored in UTC"): PostgreSQL normalizes an aware
datetime to its UTC instant on storage; a naive datetime has no determined
instant here (`none`). -/
def store_timestamp : RawTimestamp → Option Int
  | RawTimestamp.aware wall off => some (wall - off)
  | _ => none

/-- A pandas column operation that raises on the first failing cell and
otherwise returns the whole transformed column. -/
def map_column {α β : Type} (f : α → Except String β) : List α → Except String (List β)
  | [] => Except.ok []
  | a :: as =>
    match f a with
    | Except.error e => Except.error e
    | Except.ok b =>
      match map_column f as with
      | Except.error e => Except.error e
      | Except.ok bs => Except.ok (b :: bs)

/-! ## Record validator (domain/validators.py, domain/service.py) -/

/-- A raw cell as seen by pydantic coercion: present with a coercible value,
present but uncoercible (malformed UUID / non-numeric value), or missing. -/
inductive RawField (α : Type) where
  | missing
  | invalid
  | val (a : α)
deriving DecidableEq, Repr

/-- Does pydantic coercion of the cell succeed? -/
def RawField.isVal {α : Type} : RawField α → Bool
  | RawField.val _ => true
  | _ => false

/-- A raw row of a sensor-metadata chunk (`mapping.csv` columns). -/
structure RawSensorRow where
  sensor_name : RawField String
  sensor_uuid : RawField Nat
deriving DecidableEq, Repr

/-- A raw row of a measurement chunk (`timeseries/` CSV columns). -/
structure MeasurementRow where
  timestamp : RawTimestamp
  sensor_uuid : RawField Nat
  sensor_value : RawField Int
deriving DecidableEq, Repr

/-- Pydantic `datetime` coercion: accepts naive and aware datetimes (and
parseable strings), rejects unparseable ones. -/
def pydantic_datetime_ok : RawTimestamp → Bool
  | RawTimestamp.malformed => false
  | _ => true

/-- Row validity under `SensorInfoValidator` (`sensor_name : str`,
`sensor_uuid : UUID`). -/
def sensor_row_valid (r : RawSensorRow) : Bool :=
  r.sensor_name.isVal && r.sensor_uuid.isVal

/-- Row validity under `SensorMeasurementValidator` (`timestamp : datetime`,
`sensor_uuid : UUID`, `sensor_value : float`). -/
def measurement_row_valid (r : MeasurementRow) : Bool :=
  pydantic_datetime_ok r.timestamp && r.sensor_uuid.isVal && r.sensor_value.isVal

/-- `SensorDataService._validate_sensors_data`:
`Pandantic(schema=SensorInfoValidator).validate(chunk, errors="skip")` keeps
exactly the rows that validate, unchanged and in order. -/
def _validate_sensors_data (chunk : List RawSensorRow) : List RawSensorRow :=
  chunk.filter sensor_row_valid

/-- `Pandantic(schema=SensorMeasurementValidator).validate(chunk,
errors="skip")`: keeps exactly the rows that validate, unchanged and in order. -/
def validate_measurements_skip (chunk : List MeasurementRow) : List MeasurementRow :=
  chunk.filter measurement_row_valid

/-- `SensorDataService._preprocess_sensors_measurements_timestamps`: replace
the timestamp column by `pd.to_datetime(.., format="ISO8601", utc=False)`
(raising on any malformed cell), then apply `localize_if_naive` to each cell
(raising on a nonexistent spring-forward wall time). -/
def _preprocess_sensors_measurements_timestamps (chunk : List MeasurementRow) :
    Except String (List MeasurementRow) :=
  match map_column (fun r => (pd_to_datetime r.timestamp).map
      (fun t => { r with timestamp := t })) chunk with
  | Except.error e => Except.error e
  | Except.ok parsed =>
    map_column (fun r => (localize_if_naive r.timestamp).map
      (fun t => { r with timestamp := t })) parsed

/-- `SensorDataService._validate_sensors_measurements_data`: preprocess the
timestamps, then validate with `errors="skip"`. -/
def _validate_sensors_measurements_data (chunk : List MeasurementRow) :
    Except String (List MeasurementRow) :=
  match _preprocess_sensors_measurements_timestamps chunk with
  | Except.error e => Except.error e
  | Except.ok preprocessed => Except.ok (validate_measurements_skip preprocessed)

/-! ## Measurement-file scan (domain/service.py:
get_and_store_sensors_measurements, blob-descriptor loop) -/

/-- The per-descriptor branch of `get_and_store_sensors_measurements`: for each
listed blob descriptor (its `object_name`, `none` when missing), a `None` name
is skipped with a warning and the loop continues; otherwise the blob is read.
Returns the names actually read and the warnings emitted. -/
def scan_measurement_objects : List (Option String) → List String × List String
  | [] => ([], [])
  | none :: rest =>
    let r := scan_measurement_objects rest
    (r.1, "Skipping object with None name" :: r.2)
  | some object_name :: rest =>
    let r := scan_measurement_objects rest
    (object_name :: r.1, r.2)

/-! ## Orchestrator (main.py: run_worker, main; db/main.py: dispose_engine) -/

/-- The public and private methods defined on `SensorDataService`
(domain/service.py). -/
def sensorDataServiceMethods : List String :=
  ["_read_csv_file_from_minio", "_get_sensors_measurement_files_paginated",
   "_validate_sensors_data", "_preprocess_sensors_measurements_timestamps",
   "_validate_sensors_measurements_data", "get_and_store_sensors_information",
   "get_and_store_sensors_measurements", "get_sensor_readings"]

/-- The service methods `run_worker` (main.py) invokes, in source order. -/
def run_worker_calls : List String :=
  ["get_and_store_sensors_information", "get_and_store_sensor_measurements"]

/-- Python attribute lookup followed by a call, for each name in order: a name
defined on the object runs and is appended to the completed list; an undefined
name raises `AttributeError`, aborting the sequence.  Returns the completed
calls and the error, if any. -/
def call_in_order (methods : List String) : List String → List String × Option String
  | [] => ([], none)
  | c :: cs =>
    if methods.contains c then
      let r := call_in_order methods cs
      (c :: r.1, r.2)
    else ([], some ("AttributeError: " ++ c))

/-- The observable call trace of `run_worker`. -/
def run_worker_trace : List String × Option String :=
  call_in_order sensorDataServiceMethods run_worker_calls

/-- The engine slots of the `DatabaseManager` singleton (`true` = engine
present). -/
structure DatabaseManagerState where
  async_database_engine : Bool
  async_timescale_database_engine : Bool
deriving DecidableEq, Repr

/-- `DatabaseManager.dispose_engine`: dispose each engine that is present and
set its slot to `None`; returns the new state and the number of underlying
`engine.dispose()` calls performed. -/
def dispose_engine (s : DatabaseManagerState) : DatabaseManagerState × Nat :=
  (⟨false, false⟩,
    (if s.async_database_engine then 1 else 0)
      + (if s.async_timescale_database_engine then 1 else 0))

/-- Observable events of one `main()` run. -/
inductive MainEvent where
  | bodyRun
  | cleanup
deriving DecidableEq, Repr

/-- `main()`'s `try .. except .. finally`: given the outcome of the try block,
the `finally` cleanup (`DatabaseManager.dispose_engine`) always runs after the
body, and the body's error, if any, is re-raised afterwards (`raise` in the
`except` clause). -/
def pipeline_main (body : Except String Unit) : List MainEvent × Except String Unit :=
  match body with
  | Except.ok _ => ([MainEvent.bodyRun, MainEvent.cleanup], Except.ok ())
  | Except.error e => ([MainEvent.bodyRun, MainEvent.cleanup], Except.error e)

/-! ## Spec-side definition for the upsert refinement claim -/

/-- Modelled from the spec: "the store containing exactly the first occurrence
of each natural key" — keep a row when its key has not been seen earlier. -/
def first_occurrences_from (κ : Type) [DecidableEq κ] {α : Type} (key : α → κ) :
    List α → List κ → List α
  | [], _ => []
  | r :: rs, seen =>
    if key r ∈ seen then first_occurrences_from κ key rs seen
    else r :: first_occurrences_from κ key rs (key r :: seen)

/-- Modelled from the spec: the subsequence of `l` keeping exactly the first
occurrence of each `key`-value. -/
def first_occurrences {κ α : Type} [DecidableEq κ] (key : α → κ) (l : List α) :
    List α :=
  first_occurrences_from κ key l []

/-- The keys seen after scanning `l` starting from `seen` (proof device for the
upsert refinement). -/
def seen_after {κ α : Type} [DecidableEq κ] (key : α → κ) : List α → List κ → List κ
  | [], seen => seen
  | r :: rs, seen =>
    if key r ∈ seen then seen_after key rs seen
    else seen_after key rs (key r :: seen)

/-- What C2 asserts of one measurement row crossing the timestamp normalizer:
the other columns are untouched; the outgoing timestamp is timezone-aware; an
aware input passes through and its stored value is the UTC instant
`wall - offset`; a naive input is localized to Europe/Berlin and then stored as
UTC, with an ambiguous fall-back wall time resolved to offset +120 (CEST), the
occurrence strictly before the clock change. -/
def normalizes_timestamp (a b : MeasurementRow) : Prop :=
  b.sensor_uuid = a.sensor_uuid ∧ b.sensor_value = a.sensor_value ∧
  is_aware b.timestamp = true ∧
  (∀ w off, a.timestamp = RawTimestamp.aware w off →
    b.timestamp = RawTimestamp.aware w off ∧
    store_timestamp b.timestamp = some (w - off)) ∧
  (∀ w, a.timestamp = RawTimestamp.naive w →
    ∃ off, tz_localize_berlin w = Except.ok off ∧
      b.timestamp = RawTimestamp.aware w off ∧
      store_timestamp b.timestamp = some (w - off) ∧
      (berlinDstEnd ≤ w ∧ w < berlinDstEnd + 60 →
        off = 120 ∧ w - off < berlinChangeUtc))

/-! ## Shared concrete inputs for witnesses -/

/-- A measurement chunk exercising an aware timestamp, a plain naive timestamp
and a naive timestamp in the ambiguous fall-back hour. -/
def c2Chunk : List MeasurementRow :=
  [⟨RawTimestamp.aware 600 60, RawField.val 1, RawField.val 5⟩,
   ⟨RawTimestamp.naive 100, RawField.val 2, RawField.val 6⟩,
   ⟨RawTimestamp.naive 432130, RawField.val 3, RawField.val 7⟩]

/-- The normalized form of `c2Chunk`. -/
def c2Out : List MeasurementRow :=
  [⟨RawTimestamp.aware 600 60, RawField.val 1, RawField.val 5⟩,
   ⟨RawTimestamp.aware 100 60, RawField.val 2, RawField.val 6⟩,
   ⟨RawTimestamp.aware 432130 120, RawField.val 3, RawField.val 7⟩]

/-- A measurement chunk whose first row has an unparseable timestamp and whose
second row is entirely well-formed. -/
def c5BadBatch : List MeasurementRow :=
  [⟨RawTimestamp.malformed, RawField.val 1, RawField.val 5⟩,
   ⟨RawTimestamp.naive 100, RawField.val 1, RawField.val 6⟩]

/-- One known sensor, named `temp1`. -/
def demoSensors : List SensorInfo := [⟨7, "temp1"⟩]

/-- 25 measurements of sensor 7 at timestamps 25, 24, …, 1 (unsorted in store
order) with values 100, 101, …, 124. -/
def demoDb : List SensorMeasurement :=
  (List.range 25).map (fun i => ⟨7, (25 : Int) - i, (100 : Int) + i⟩)

/-- Rows 11–20 of the timestamp-ordered `(sensor_value, timestamp)` projection
of `demoDb` (the value at timestamp `t` is `125 - t`). -/
def demoPage2 : List (Int × Int) :=
  [(114, 11), (113, 12), (112, 13), (111, 14), (110, 15),
   (109, 16), (108, 17), (107, 18), (106, 19), (105, 20)]

/-- Ascending-timestamp comparison on projected `(sensor_value, timestamp)`
rows. -/
def pair_ts_le (p q : Int × Int) : Prop := p.2 ≤ q.2

/-! ## C4 — orchestrator phase order -/

/-- C4: the claim says every orchestrator run executes metadata ingestion and
then measurement ingestion.  The code cannot: `run_worker` invokes
`get_and_store_sensor_measurements`, which is not a method of
`SensorDataService` (the method is named `get_and_store_sensors_measurements`),
so after metadata ingestion completes the run raises `AttributeError` and
measurement ingestion never executes. -/
theorem run_worker_measurement_ingestion_never_runs :
    run_worker_trace = (["get_and_store_sensors_information"],
      some "AttributeError: get_and_store_sensor_measurements") ∧
    "get_and_store_sensor_measurements" ∉ sensorDataServiceMethods ∧
    "get_and_store_sensors_measurements" ∈ sensorDataServiceMethods ∧
    "get_and_store_sensors_measurements" ∉ run_worker_trace.1 := by
  decide

/-! ## C7 — guaranteed cleanup and idempotent disposal -/

/-- C7: whatever the outcome of the `try` body of `main()`, the engine-disposal
cleanup runs last and the body's outcome (including any unhandled error) is
surfaced unchanged; and a second `dispose_engine` performs zero underlying
`engine.dispose()` calls and leaves the state unchanged (idempotent). -/
theorem main_cleanup_always_runs_and_disposal_idempotent :
    (∀ body : Except String Unit,
      (pipeline_main body).1.getLast? = some MainEvent.cleanup ∧
      (pipeline_main body).2 = body) ∧
    (∀ s : DatabaseManagerState,
      (dispose_engine (dispose_engine s).1).2 = 0 ∧
      (dispose_engine (dispose_engine s).1).1 = (dispose_engine s).1) := by
  refine ⟨fun body => ?_, fun s => ⟨rfl, rfl⟩⟩
  cases body with
  | ok u => cases u; exact ⟨rfl, rfl⟩
  | error e => exact ⟨rfl, rfl⟩

/-- Concrete run of C7: a failing body still ends with cleanup and surfaces its
error, and double disposal from a fully initialized manager is a no-op. -/
theorem main_cleanup_always_runs_witness :
    (pipeline_main (Except.error "boom")).1.getLast? = some MainEvent.cleanup ∧
    (pipeline_main (Except.error "boom")).2 = Except.error "boom" ∧
    (dispose_engine (dispose_engine ⟨true, true⟩).1).2 = 0 :=
  ⟨(main_cleanup_always_runs_and_disposal_idempotent.1 (Except.error "boom")).1,
   (main_cleanup_always_runs_and_disposal_idempotent.1 (Except.error "boom")).2,
   (main_cleanup_always_runs_and_disposal_idempotent.2 ⟨true, true⟩).1⟩

/-! ## C9 — blob descriptors with missing names -/

/-- C9 counterexample: the claim says a blob descriptor with an *empty* name is
skipped with a warning and never triggers a blob read.  The code only tests
`object.object_name is None`: a descriptor whose name is the empty string is
not skipped, emits no warning, and its (empty) name is passed to the blob
read. -/
theorem empty_named_blob_not_skipped :
    scan_measurement_objects [some ""] = ([""], []) ∧
    "" ∈ (scan_measurement_objects [some ""]).1 := by
  decide

/-- C9 amended: during measurement ingestion, exactly the descriptors whose
name is missing (`None`) are skipped — each with one warning and without a blob
read — while every descriptor carrying a name (the empty string included) has
its name read; ingestion continues across the whole listing in both cases. -/
theorem missing_named_blobs_skipped (objects : List (Option String)) :
    (scan_measurement_objects objects).1 = objects.filterMap id ∧
    (scan_measurement_objects objects).2.length = objects.count none := by
  induction objects with
  | nil => exact ⟨rfl, rfl⟩
  | cons o rest ih =>
    cases o with
    | none =>
      simp [scan_measurement_objects, List.count_cons, ih.1, ih.2]
    | some object_name =>
      simp [scan_measurement_objects, List.count_cons, ih.1, ih.2]

/-- Concrete run of C9 (amended): a listing with a named blob, a missing name
and an empty name reads the two present names and warns once. -/
theorem missing_named_blobs_skipped_witness :
    (scan_measurement_objects [some "a", none, some ""]).1
        = [some "a", none, some ""].filterMap id ∧
    (scan_measurement_objects [some "a", none, some ""]).2.length
        = [some "a", none, some ""].count none :=
  missing_named_blobs_skipped [some "a", none, some ""]

/-! ## C3 — upsert first-write-wins -/

/-- `first_occurrences_from` depends on the seen keys only through
membership. -/
theorem first_occurrences_from_congr {κ α : Type} [DecidableEq κ] (key : α → κ) :
    ∀ (l : List α) (s₁ s₂ : List κ), (∀ k, k ∈ s₁ ↔ k ∈ s₂) →
      first_occurrences_from κ key l s₁ = first_occurrences_from κ key l s₂ := by
  intro l
  induction l with
  | nil => intro _ _ _; rfl
  | cons r rs ih =>
    intro s₁ s₂ hs
    by_cases h : key r ∈ s₁
    · rw [first_occurrences_from, first_occurrences_from, if_pos h,
        if_pos ((hs (key r)).1 h)]
      exact ih s₁ s₂ hs
    · rw [first_occurrences_from, first_occurrences_from, if_neg h,
        if_neg (fun hc => h ((hs (key r)).2 hc))]
      exact congrArg (r :: ·) (ih (key r :: s₁) (key r :: s₂) (by
        intro k
        simp only [List.mem_cons, hs k]))

/-- The conflict-tolerant bulk insert appends exactly the incoming rows whose
key is neither already stored nor seen earlier in the same batch. -/
theorem insert_on_conflict_do_nothing_eq {κ α : Type} [DecidableEq κ]
    (key : α → κ) :
    ∀ (values store : List α),
      insert_on_conflict_do_nothing key store values
        = store ++ first_occurrences_from κ key values (store.map key) := by
  intro values
  induction values with
  | nil => intro store; simp [insert_on_conflict_do_nothing, first_occurrences_from]
  | cons r rs ih =>
    intro store
    by_cases h : key r ∈ store.map key
    · have step : insert_on_conflict_do_nothing key store (r :: rs)
          = insert_on_conflict_do_nothing key store rs := by
        unfold insert_on_conflict_do_nothing
        rw [List.foldl_cons, if_pos h]
      rw [step, ih store, first_occurrences_from, if_pos h]
    · have step : insert_on_conflict_do_nothing key store (r :: rs)
          = insert_on_conflict_do_nothing key (store ++ [r]) rs := by
        unfold insert_on_conflict_do_nothing
        rw [List.foldl_cons, if_neg h]
      rw [step, ih (store ++ [r]), first_occurrences_from, if_neg h,
        List.append_assoc]
      refine congrArg (store ++ ·) ?_
      rw [List.singleton_append]
      refine congrArg (r :: ·) ?_
      refine first_occurrences_from_congr key rs _ _ ?_
      intro k
      simp [List.mem_cons, List.mem_append, or_comm]

/-- Scanning an appended batch splits along the seen keys. -/
theorem first_occurrences_from_append {κ α : Type} [DecidableEq κ]
    (key : α → κ) :
    ∀ (l₁ l₂ : List α) (seen : List κ),
      first_occurrences_from κ key (l₁ ++ l₂) seen
        = first_occurrences_from κ key l₁ seen
            ++ first_occurrences_from κ key l₂ (seen_after key l₁ seen) := by
  intro l₁
  induction l₁ with
  | nil => intro l₂ seen; rfl
  | cons r rs ih =>
    intro l₂ seen
    by_cases h : key r ∈ seen
    · rw [List.cons_append, first_occurrences_from, if_pos h,
        first_occurrences_from, if_pos h, seen_after, if_pos h, ih]
    · rw [List.cons_append, first_occurrences_from, if_neg h,
        first_occurrences_from, if_neg h, seen_after, if_neg h, ih,
        List.cons_append]

/-- The keys seen after a scan are the keys kept by the scan plus the initial
ones. -/
theorem mem_seen_after {κ α : Type} [DecidableEq κ] (key : α → κ) :
    ∀ (l : List α) (seen : List κ) (k : κ),
      k ∈ seen_after key l seen ↔
        k ∈ (first_occurrences_from κ key l seen).map key ∨ k ∈ seen := by
  intro l
  induction l with
  | nil => intro seen k; simp [seen_after, first_occurrences_from]
  | cons r rs ih =>
    intro seen k
    by_cases h : key r ∈ seen
    · rw [seen_after, if_pos h, first_occurrences_from, if_pos h]
      exact ih seen k
    · rw [seen_after, if_neg h, first_occurrences_from, if_neg h]
      rw [ih (key r :: seen) k]
      simp only [List.map_cons, List.mem_cons]
      tauto

/-- A scan over rows whose keys are all already seen keeps nothing. -/
theorem first_occurrences_from_eq_nil {κ α : Type} [DecidableEq κ]
    (key : α → κ) :
    ∀ (l : List α) (seen : List κ), (∀ r ∈ l, key r ∈ seen) →
      first_occurrences_from κ key l seen = [] := by
  intro l
  induction l with
  | nil => intro _ _; rfl
  | cons r rs ih =>
    intro seen h
    rw [first_occurrences_from, if_pos (h r (List.mem_cons_self r rs))]
    exact ih seen (fun x hx => h x (List.mem_cons_of_mem r hx))

/-- A fully conflicting batch leaves the store untouched. -/
theorem insert_on_conflict_do_nothing_no_op {κ α : Type} [DecidableEq κ]
    (key : α → κ) (store values : List α)
    (h : ∀ r ∈ values, key r ∈ store.map key) :
    insert_on_conflict_do_nothing key store values = store := by
  rw [insert_on_conflict_do_nothing_eq, first_occurrences_from_eq_nil key values _ h,
    List.append_nil]

/-- Storing a batch into the empty store and then an overlapping batch keeps
exactly the first occurrence of each key across both batches. -/
theorem insert_on_conflict_do_nothing_compose {κ α : Type} [DecidableEq κ]
    (key : α → κ) (b₁ b₂ : List α) :
    insert_on_conflict_do_nothing key (insert_on_conflict_do_nothing key [] b₁) b₂
      = first_occurrences key (b₁ ++ b₂) := by
  rw [insert_on_conflict_do_nothing_eq, insert_on_conflict_do_nothing_eq]
  simp only [List.map_nil, List.nil_append]
  rw [first_occurrences, first_occurrences_from_append]
  refine congrArg (first_occurrences_from κ key b₁ [] ++ ·) ?_
  refine first_occurrences_from_congr key b₂ _ _ ?_
  intro k
  rw [mem_seen_after]
  simp

/-- C3: for both writers (sensors keyed by `sensor_uuid`, measurements keyed by
`(sensor_uuid, timestamp)`): a bulk insert appends only conflict-free rows and
leaves the existing store untouched; a batch whose keys all conflict is
discarded entirely without error; and storing a batch into an empty store
followed by an overlapping batch leaves exactly the first occurrence of each
natural key — the idempotent first-write-wins upsert. -/
theorem upsert_first_write_wins :
    (∀ store sensor_records : List SensorInfo,
      store_sensors_data store sensor_records
        = store ++ first_occurrences_from Nat (fun s => s.sensor_uuid)
            sensor_records (store.map (fun s => s.sensor_uuid))) ∧
    (∀ store sensor_records : List SensorInfo,
      (∀ r ∈ sensor_records, r.sensor_uuid ∈ store.map (fun s => s.sensor_uuid)) →
      store_sensors_data store sensor_records = store) ∧
    (∀ b₁ b₂ : List SensorInfo,
      store_sensors_data (store_sensors_data [] b₁) b₂
        = first_occurrences (fun s => s.sensor_uuid) (b₁ ++ b₂)) ∧
    (∀ store sensors_measurements : List SensorMeasurement,
      store_sensors_measurements store sensors_measurements
        = store ++ first_occurrences_from (Nat × Int)
            (fun m => (m.sensor_uuid, m.timestamp)) sensors_measurements
            (store.map (fun m => (m.sensor_uuid, m.timestamp)))) ∧
    (∀ store sensors_measurements : List SensorMeasurement,
      (∀ r ∈ sensors_measurements,
        (r.sensor_uuid, r.timestamp) ∈ store.map (fun m => (m.sensor_uuid, m.timestamp))) →
      store_sensors_measurements store sensors_measurements = store) ∧
    (∀ b₁ b₂ : List SensorMeasurement,
      store_sensors_measurements (store_sensors_measurements [] b₁) b₂
        = first_occurrences (fun m => (m.sensor_uuid, m.timestamp)) (b₁ ++ b₂)) :=
  ⟨fun store records => insert_on_conflict_do_nothing_eq _ records store,
   fun store records h => insert_on_conflict_do_nothing_no_op _ store records h,
   fun b₁ b₂ => insert_on_conflict_do_nothing_compose _ b₁ b₂,
   fun store ms => insert_on_conflict_do_nothing_eq _ ms store,
   fun store ms h => insert_on_conflict_do_nothing_no_op _ store ms h,
   fun b₁ b₂ => insert_on_conflict_do_nothing_compose _ b₁ b₂⟩

/-- Concrete run of C3: re-storing conflicting sensor rows is a no-op, and
overlapping measurement batches keep the first writes. -/
theorem upsert_first_write_wins_witness :
    store_sensors_data [⟨1, "a"⟩, ⟨2, "b"⟩] [⟨1, "adup"⟩, ⟨2, "bdup"⟩]
        = [⟨1, "a"⟩, ⟨2, "b"⟩] ∧
    store_sensors_measurements
        (store_sensors_measurements [] [⟨1, 10, 5⟩, ⟨1, 10, 6⟩, ⟨2, 10, 7⟩])
        [⟨1, 10, 8⟩, ⟨3, 4, 9⟩]
      = first_occurrences (fun m => (m.sensor_uuid, m.timestamp))
          ([⟨1, 10, 5⟩, ⟨1, 10, 6⟩, ⟨2, 10, 7⟩] ++ [⟨1, 10, 8⟩, ⟨3, 4, 9⟩]) :=
  ⟨upsert_first_write_wins.2.1 _ _ (by decide),
   upsert_first_write_wins.2.2.2.2.2 _ _⟩

/-! ## C8 — unknown sensor name -/

/-- C8: when no sensor row matches the requested name exactly, the read path
logs the event and returns the empty stream — no error is raised and the
measurement store is never queried (zero fetches). -/
theorem unknown_sensor_yields_empty (sensors : List SensorInfo)
    (db : List SensorMeasurement) (sensor_name : String)
    (start_timestamp end_timestamp : Int) (page_number page_size : Option Nat)
    (h : sensors.filter (fun s => s.sensor_name == sensor_name) = []) :
    get_sensor_readings sensors db sensor_name start_timestamp end_timestamp
        page_number page_size
      = Except.ok ⟨[], 0, ["Sensor " ++ sensor_name ++ " is not found."]⟩ := by
  simp [get_sensor_readings, get_sensor_by_sensor_name, h, scalar_one_or_none]

/-- Concrete run of C8: querying the unknown name `nope` against the demo
store. -/
theorem unknown_sensor_yields_empty_witness :
    get_sensor_readings demoSensors demoDb "nope" 1 25 none none
      = Except.ok ⟨[], 0, ["Sensor " ++ "nope" ++ " is not found."]⟩ :=
  unknown_sensor_yields_empty demoSensors demoDb "nope" 1 25 none none (by decide)

/-! ## C6 — per-row validation drops -/

/-- C6: for both schemas, validating a batch with `errors="skip"` never raises;
a row failing type coercion (missing required field, malformed UUID,
non-numeric value, unparseable timestamp) is exactly a row absent from the
output, and the output is the subsequence of coercible rows of the input,
unchanged and in order. -/
theorem validator_drops_invalid_rows_individually :
    (∀ chunk : List RawSensorRow,
      (_validate_sensors_data chunk).Sublist chunk ∧
      ∀ r : RawSensorRow,
        r ∈ _validate_sensors_data chunk ↔ r ∈ chunk ∧ sensor_row_valid r = true) ∧
    (∀ chunk : List MeasurementRow,
      (validate_measurements_skip chunk).Sublist chunk ∧
      ∀ r : MeasurementRow,
        r ∈ validate_measurements_skip chunk ↔
          r ∈ chunk ∧ measurement_row_valid r = true) := by
  constructor
  · intro chunk
    exact ⟨List.filter_sublist chunk, fun r => List.mem_filter⟩
  · intro chunk
    exact ⟨List.filter_sublist chunk, fun r => List.mem_filter⟩

/-- Concrete run of C6: a batch with a malformed-UUID row and a missing-field
row keeps exactly the two coercible rows, unchanged. -/
theorem validator_drops_invalid_rows_witness :
    ((_validate_sensors_data
        [⟨RawField.val "temp1", RawField.val 7⟩,
         ⟨RawField.val "bad", RawField.invalid⟩,
         ⟨RawField.missing, RawField.val 8⟩,
         ⟨RawField.val "temp2", RawField.val 9⟩]).Sublist
      [⟨RawField.val "temp1", RawField.val 7⟩,
       ⟨RawField.val "bad", RawField.invalid⟩,
       ⟨RawField.missing, RawField.val 8⟩,
       ⟨RawField.val "temp2", RawField.val 9⟩]) ∧
    ((⟨RawField.val "bad", RawField.invalid⟩ : RawSensorRow) ∈
      _validate_sensors_data
        [⟨RawField.val "temp1", RawField.val 7⟩,
         ⟨RawField.val "bad", RawField.invalid⟩,
         ⟨RawField.missing, RawField.val 8⟩,
         ⟨RawField.val "temp2", RawField.val 9⟩] ↔
      (⟨RawField.val "bad", RawField.invalid⟩ : RawSensorRow) ∈
        [⟨RawField.val "temp1", RawField.val 7⟩,
         ⟨RawField.val "bad", RawField.invalid⟩,
         ⟨RawField.missing, RawField.val 8⟩,
         ⟨RawField.val "temp2", RawField.val 9⟩] ∧
      sensor_row_valid ⟨RawField.val "bad", RawField.invalid⟩ = true) :=
  ⟨(validator_drops_invalid_rows_individually.1 _).1,
   (validator_drops_invalid_rows_individually.1 _).2 _⟩

/-! ## C2 / C5 — timestamp normalization -/

/-- A successful pandas column map transforms the column pointwise. -/
theorem map_column_ok_forall₂ {α β : Type} (f : α → Except String β) :
    ∀ (l : List α) (out : List β), map_column f l = Except.ok out →
      List.Forall₂ (fun a b => f a = Except.ok b) l out := by
  intro l
  induction l with
  | nil =>
    intro out h
    cases h
    exact List.Forall₂.nil
  | cons a as ih =>
    intro out h
    rw [map_column] at h
    cases hfa : f a with
    | error e => rw [hfa] at h; cases h
    | ok b =>
      rw [hfa] at h
      cases hrec : map_column f as with
      | error e => rw [hrec] at h; cases h
      | ok bs =>
        rw [hrec] at h
        cases h
        exact List.Forall₂.cons hfa (ih bs hrec)

/-- Composition of two pointwise relations along an intermediate list. -/
theorem forall₂_compose {α β γ : Type} {R : α → β → Prop} {S : β → γ → Prop} :
    ∀ {l : List α} {m : List β} {n : List γ},
      List.Forall₂ R l m → List.Forall₂ S m n →
      List.Forall₂ (fun a c => ∃ b, R a b ∧ S b c) l n := by
  intro l m n h₁
  induction h₁ generalizing n with
  | nil =>
    intro h₂
    cases h₂
    exact List.Forall₂.nil
  | cons hab _ ih =>
    intro h₂
    cases h₂ with
    | cons hbc htail => exact List.Forall₂.cons ⟨_, hab, hbc⟩ (ih htail)

/-- Every element of the right list of a `Forall₂` is related to some element
of the left list. -/
theorem forall₂_mem_right {α β : Type} {R : α → β → Prop} :
    ∀ {l : List α} {m : List β}, List.Forall₂ R l m →
      ∀ b ∈ m, ∃ a ∈ l, R a b := by
  intro l m h
  induction h with
  | nil => intro b hb; cases hb
  | cons hab _ ih =>
    intro b hb
    rcases List.mem_cons.mp hb with rfl | hb
    · exact ⟨_, List.mem_cons_self .., hab⟩
    · rcases ih b hb with ⟨a, ha, har⟩
      exact ⟨a, List.mem_cons_of_mem _ ha, har⟩

/-- In the ambiguous fall-back hour, `tz_localize .. ambiguous=True` picks the
CEST reading, whose UTC instant precedes the clock change. -/
theorem tz_localize_berlin_ambiguous (w off : Int)
    (h : tz_localize_berlin w = Except.ok off)
    (ha : berlinDstEnd ≤ w ∧ w < berlinDstEnd + 60) :
    off = 120 ∧ w - off < berlinChangeUtc := by
  unfold tz_localize_berlin at h
  simp only [berlinDstStart, berlinDstEnd, berlinChangeUtc] at h ha ⊢
  split_ifs at h with h1 h2 h3 h4 <;> cases h <;> omega

/-- One row crossing `_preprocess_sensors_measurements_timestamps`
successfully satisfies the C2 normalization relation. -/
theorem row_normalizes (a c : MeasurementRow)
    (h : ∃ b : MeasurementRow,
      (pd_to_datetime a.timestamp).map
          (fun t => ({ a with timestamp := t } : MeasurementRow)) = Except.ok b ∧
      (localize_if_naive b.timestamp).map
          (fun t => ({ b with timestamp := t } : MeasurementRow)) = Except.ok c) :
    normalizes_timestamp a c := by
  rcases h with ⟨b, hab, hbc⟩
  cases hts : a.timestamp with
  | malformed =>
    rw [hts] at hab
    cases hab
  | naive w =>
    rw [hts] at hab
    simp only [pd_to_datetime, Except.map] at hab
    cases hab
    simp only [localize_if_naive] at hbc
    cases hl : tz_localize_berlin w with
    | error e => rw [hl] at hbc; cases hbc
    | ok off =>
      rw [hl] at hbc
      simp only [Except.map] at hbc
      cases hbc
      refine ⟨rfl, rfl, rfl, ?_, ?_⟩
      · intro w' off' hw'
        rw [hts] at hw'
        cases hw'
      · intro w' hw'
        rw [hts] at hw'
        cases hw'
        exact ⟨off, hl, rfl, rfl, fun hamb => tz_localize_berlin_ambiguous w off hl hamb⟩
  | aware w off =>
    rw [hts] at hab
    simp only [pd_to_datetime, Except.map] at hab
    cases hab
    simp only [localize_if_naive, Except.map] at hbc
    cases hbc
    refine ⟨rfl, rfl, rfl, ?_, ?_⟩
    · intro w' off' hw'
      rw [hts] at hw'
      cases hw'
      exact ⟨rfl, rfl⟩
    · intro w' hw'
      rw [hts] at hw'
      cases hw'

/-- C2: when the timestamp preprocessing of a measurement chunk succeeds, every
row is normalized as claimed — other columns untouched, every outgoing
timestamp timezone-aware with a determined stored UTC instant (`wall - offset`
for aware inputs, Berlin-localized for naive inputs, the ambiguous fall-back
hour resolved to the pre-change CEST occurrence) — so no naive timestamp
reaches the measurement writer or the store. -/
theorem measurement_timestamps_normalized_to_utc
    (chunk out : List MeasurementRow)
    (h : _preprocess_sensors_measurements_timestamps chunk = Except.ok out) :
    List.Forall₂ normalizes_timestamp chunk out ∧
    ∀ r ∈ out, is_aware r.timestamp = true ∧ store_timestamp r.timestamp ≠ none := by
  unfold _preprocess_sensors_measurements_timestamps at h
  cases hp : map_column (fun r => (pd_to_datetime r.timestamp).map
      (fun t => ({ r with timestamp := t } : MeasurementRow))) chunk with
  | error e => rw [hp] at h; cases h
  | ok parsed =>
    rw [hp] at h
    have h₁ := map_column_ok_forall₂ _ chunk parsed hp
    have h₂ := map_column_ok_forall₂ _ parsed out h
    have hcomp := forall₂_compose h₁ h₂
    have hnorm : List.Forall₂ normalizes_timestamp chunk out :=
      List.Forall₂.imp (fun a c hx => row_normalizes a c hx) hcomp
    refine ⟨hnorm, ?_⟩
    intro r hr
    rcases forall₂_mem_right hnorm r hr with ⟨a, _, hrel⟩
    rcases hrel with ⟨_, _, haw, _, _⟩
    cases hts : r.timestamp with
    | malformed => rw [hts] at haw; cases haw
    | naive w => rw [hts] at haw; cases haw
    | aware w off => exact ⟨rfl, by simp [store_timestamp]⟩

/-- Concrete run of C2 on `c2Chunk`. -/
theorem measurement_timestamps_normalized_to_utc_witness :
    List.Forall₂ normalizes_timestamp c2Chunk c2Out ∧
    ∀ r ∈ c2Out, is_aware r.timestamp = true ∧ store_timestamp r.timestamp ≠ none :=
  measurement_timestamps_normalized_to_utc c2Chunk c2Out rfl

/-- C5 counterexample: the claim says a batch containing a malformed timestamp
does not raise — the bad row is dropped by the validator and the rest of the
batch proceeds.  On `c5BadBatch` the normalizer itself raises `ValueError`
(`pd.to_datetime` runs before validation with `errors` defaulting to raise),
so the whole batch is lost, including its well-formed second row. -/
theorem malformed_timestamp_batch_raises :
    _validate_sensors_measurements_data c5BadBatch
      = Except.error "ValueError: unparseable timestamp" ∧
    (⟨RawTimestamp.naive 100, RawField.val 1, RawField.val 6⟩ : MeasurementRow)
      ∈ c5BadBatch := by
  exact ⟨rfl, by decide⟩

/-- The timestamp-parsing column map fails on any chunk containing a malformed
timestamp. -/
theorem map_column_error_of_malformed :
    ∀ chunk : List MeasurementRow,
      (∃ r ∈ chunk, r.timestamp = RawTimestamp.malformed) →
      map_column (fun r => (pd_to_datetime r.timestamp).map
          (fun t => ({ r with timestamp := t } : MeasurementRow))) chunk
        = Except.error "ValueError: unparseable timestamp" := by
  intro chunk
  induction chunk with
  | nil =>
    rintro ⟨r, hr, _⟩
    cases hr
  | cons a as ih =>
    rintro ⟨r, hr, hm⟩
    rcases List.mem_cons.mp hr with rfl | hmem
    · rw [map_column, hm]
      rfl
    · rw [map_column]
      cases hfa : (pd_to_datetime a.timestamp).map
          (fun t => ({ a with timestamp := t } : MeasurementRow)) with
      | error e =>
        simp only [hfa]
        cases hts : a.timestamp with
        | malformed =>
          rw [hts] at hfa
          simp only [pd_to_datetime, Except.map] at hfa
          cases hfa
          rfl
        | naive w =>
          rw [hts] at hfa
          simp [pd_to_datetime, Except.map] at hfa
        | aware w off =>
          rw [hts] at hfa
          simp [pd_to_datetime, Except.map] at hfa
      | ok b =>
        simp only [hfa, ih ⟨r, hmem, hm⟩]

/-- C5 amended: normalization runs before validation, and a measurement batch
containing a malformed (unparseable) timestamp string makes the normalizer
raise a parse error that aborts the entire batch — the bad row is not dropped
individually and the rest of the batch does not proceed; the validator never
sees the chunk. -/
theorem malformed_timestamp_aborts_batch (chunk : List MeasurementRow)
    (h : ∃ r ∈ chunk, r.timestamp = RawTimestamp.malformed) :
    _preprocess_sensors_measurements_timestamps chunk
        = Except.error "ValueError: unparseable timestamp" ∧
    _validate_sensors_measurements_data chunk
        = Except.error "ValueError: unparseable timestamp" := by
  have hp := map_column_error_of_malformed chunk h
  constructor
  · unfold _preprocess_sensors_measurements_timestamps
    rw [hp]
  · unfold _validate_sensors_measurements_data
      _preprocess_sensors_measurements_timestamps
    rw [hp]

/-- Concrete run of C5 (amended) on `c5BadBatch`. -/
theorem malformed_timestamp_aborts_batch_witness :
    _preprocess_sensors_measurements_timestamps c5BadBatch
        = Except.error "ValueError: unparseable timestamp" ∧
    _validate_sensors_measurements_data c5BadBatch
        = Except.error "ValueError: unparseable timestamp" :=
  malformed_timestamp_aborts_batch c5BadBatch
    ⟨⟨RawTimestamp.malformed, RawField.val 1, RawField.val 5⟩, by decide, rfl⟩

/-! ## C1 / C10 — paginated read path -/

/-- The ordered query result is no longer than the store. -/
theorem sorted_query_length_le (db : List SensorMeasurement) (sensor_uuid : Nat)
    (lo hi : Int) : (sorted_query db sensor_uuid lo hi).length ≤ db.length := by
  unfold sorted_query order_by_timestamp
  rw [List.length_map, List.length_insertionSort]
  exact List.length_filter_le _ _

/-- The ordered query result is ascending in its timestamp column. -/
theorem pairwise_sorted_query (db : List SensorMeasurement) (sensor_uuid : Nat)
    (lo hi : Int) : List.Pairwise pair_ts_le (sorted_query db sensor_uuid lo hi) := by
  unfold sorted_query order_by_timestamp
  refine List.Pairwise.map _ (fun a b hab => hab) ?_
  exact List.sorted_insertionSort ts_le _

/-- With a page-size quota, the concatenation of all batches the loop yields
from `offset` with running total `total` is the `ps - total`-row window of the
ordered query starting at `offset`, provided the fuel dominates the remaining
rows. -/
theorem loop_flatten_paged (db : List SensorMeasurement) (sensor_uuid : Nat)
    (lo hi : Int) (ps : Nat) :
    ∀ (fuel offset total : Nat),
      (sorted_query db sensor_uuid lo hi).length < fuel + offset →
      (get_sensor_readings_loop db sensor_uuid lo hi (some ps) offset total
          fuel).batches.flatten
        = ((sorted_query db sensor_uuid lo hi).drop offset).take (ps - total) := by
  intro fuel
  induction fuel with
  | zero =>
    intro offset total h
    rw [get_sensor_readings_loop, List.drop_eq_nil_of_le (by omega)]
    simp
  | succ fuel ih =>
    intro offset total h
    rw [get_sensor_readings_loop]
    by_cases hq : ps - total = 0
    · simp [hq]
    · simp only [if_neg hq]
      set L := sorted_query db sensor_uuid lo hi with hL
      set k := min 500 (ps - total) with hk
      have hk1 : 1 ≤ k := by omega
      by_cases hb : ((L.drop offset).take k).isEmpty
      · have hs : L.drop offset = [] := by
          rcases List.take_eq_nil_iff.mp (List.isEmpty_iff.mp hb) with h0 | h0
          · omega
          · exact h0
        simp [get_sensor_measurements_by_sensor_uuid_and_time_range, ← hL, hb, hs]
      · have hbne : (L.drop offset).take k ≠ [] := fun hc => by
          rw [hc] at hb
          exact hb rfl
        have hb1 : 1 ≤ ((L.drop offset).take k).length :=
          List.length_pos.mpr hbne
        have hblen : ((L.drop offset).take k).length = min k (L.drop offset).length :=
          List.length_take ..
        simp only [get_sensor_measurements_by_sensor_uuid_and_time_range, ← hL]
        rw [if_neg (fun hc => hbne (List.isEmpty_iff.mp hc))]
        dsimp only
        rw [List.flatten_cons]
        rw [ih (offset + ((L.drop offset).take k).length)
          (total + ((L.drop offset).take k).length) (by omega)]
        rw [← List.drop_drop]
        rcases Nat.le_total (L.drop offset).length k with hlen | hlen
        · have hk2 : k ≤ ps - total := by
            rw [hk]
            exact Nat.min_le_right ..
          rw [List.take_of_length_le hlen, List.drop_eq_nil_of_le (le_refl _),
            List.take_nil, List.append_nil,
            List.take_of_length_le (le_trans hlen hk2)]
        · have hbl : ((L.drop offset).take k).length = k := by omega
          rw [hbl]
          have hsplit : ps - total = k + (ps - total - k) := by omega
          rw [hsplit, List.take_add]
          have : ps - (total + k) = ps - total - k := by omega
          rw [this]

/-- Without a page size, the loop drains the whole ordered query from
`offset`. -/
theorem loop_flatten_unpaged (db : List SensorMeasurement) (sensor_uuid : Nat)
    (lo hi : Int) :
    ∀ (fuel offset total : Nat),
      (sorted_query db sensor_uuid lo hi).length < fuel + offset →
      (get_sensor_readings_loop db sensor_uuid lo hi none offset total
          fuel).batches.flatten
        = (sorted_query db sensor_uuid lo hi).drop offset := by
  intro fuel
  induction fuel with
  | zero =>
    intro offset total h
    rw [get_sensor_readings_loop, List.drop_eq_nil_of_le (by omega)]
    rfl
  | succ fuel ih =>
    intro offset total h
    rw [get_sensor_readings_loop]
    set L := sorted_query db sensor_uuid lo hi with hL
    by_cases hb : ((L.drop offset).take 500).isEmpty
    · have hs : L.drop offset = [] := by
        rcases List.take_eq_nil_iff.mp (List.isEmpty_iff.mp hb) with h0 | h0
        · omega
        · exact h0
      simp [get_sensor_measurements_by_sensor_uuid_and_time_range, ← hL, hb, hs]
    · have hbne : (L.drop offset).take 500 ≠ [] := fun hc => by
        rw [hc] at hb
        exact hb rfl
      have hb1 : 1 ≤ ((L.drop offset).take 500).length :=
        List.length_pos.mpr hbne
      have hblen : ((L.drop offset).take 500).length = min 500 (L.drop offset).length :=
        List.length_take ..
      simp only [get_sensor_measurements_by_sensor_uuid_and_time_range, ← hL]
      rw [if_neg (fun hc => hbne (List.isEmpty_iff.mp hc))]
      dsimp only
      rw [List.flatten_cons]
      rw [ih (offset + ((L.drop offset).take 500).length)
        (total + ((L.drop offset).take 500).length) (by omega)]
      rw [← List.drop_drop]
      rcases Nat.le_total (L.drop offset).length 500 with hlen | hlen
      · rw [List.take_of_length_le hlen, List.drop_eq_nil_of_le (le_refl _),
          List.append_nil]
      · have hbl : ((L.drop offset).take 500).length = 500 := by omega
        rw [hbl, List.take_append_drop]

/-- C1: once the sensor name resolves, a read with positive `page_number` and
`page_size` yields exactly the `page_size`-row window of the timestamp-ordered
matching rows starting at offset `(page_number - 1) * page_size` — hence never
more than `page_size` rows, in ascending timestamp order; and a read with no
pagination yields all matching rows in ascending timestamp order. -/
theorem get_sensor_readings_paginates
    (sensors : List SensorInfo) (db : List SensorMeasurement) (sensor_name : String)
    (start_timestamp end_timestamp : Int) (sensor : SensorInfo)
    (hs : get_sensor_by_sensor_name sensors sensor_name = Except.ok (some sensor)) :
    (∀ page_number page_size : Nat, 0 < page_number → 0 < page_size →
      ∃ r : ReadStream,
        get_sensor_readings sensors db sensor_name start_timestamp end_timestamp
            (some page_number) (some page_size) = Except.ok r ∧
        r.batches.flatten
          = ((sorted_query db sensor.sensor_uuid start_timestamp end_timestamp).drop
              ((page_number - 1) * page_size)).take page_size ∧
        r.batches.flatten.length ≤ page_size ∧
        List.Pairwise pair_ts_le r.batches.flatten) ∧
    (∃ r : ReadStream,
      get_sensor_readings sensors db sensor_name start_timestamp end_timestamp
          none none = Except.ok r ∧
      r.batches.flatten
        = sorted_query db sensor.sensor_uuid start_timestamp end_timestamp ∧
      r.batches.flatten.Perm
        ((matching_measurements db sensor.sensor_uuid start_timestamp
            end_timestamp).map (fun m => (m.sensor_value, m.timestamp))) ∧
      List.Pairwise pair_ts_le r.batches.flatten) := by
  constructor
  · intro pn ps hpn hps
    have ht : (truthy (some pn) && truthy (some ps)) = true := by
      simp only [truthy, Bool.and_eq_true, Bool.not_eq_true', beq_eq_false_iff_ne]
      omega
    have hflat := loop_flatten_paged db sensor.sensor_uuid start_timestamp
      end_timestamp ps (db.length + 1) ((pn - 1) * ps) 0 (by
        have := sorted_query_length_le db sensor.sensor_uuid start_timestamp
          end_timestamp
        omega)
    rw [Nat.sub_zero] at hflat
    refine ⟨_, ?_, hflat, ?_, ?_⟩
    · unfold get_sensor_readings
      simp [hs, ht]
    · rw [hflat]
      exact List.length_take_le ..
    · rw [hflat]
      exact (pairwise_sorted_query db sensor.sensor_uuid start_timestamp
        end_timestamp).sublist ((List.take_sublist ..).trans (List.drop_sublist ..))
  · have hflat := loop_flatten_unpaged db sensor.sensor_uuid start_timestamp
      end_timestamp (db.length + 1) 0 0 (by
        have := sorted_query_length_le db sensor.sensor_uuid start_timestamp
          end_timestamp
        omega)
    rw [List.drop_zero] at hflat
    refine ⟨_, ?_, hflat, ?_, ?_⟩
    · unfold get_sensor_readings
      simp [hs, truthy]
    · rw [hflat]
      unfold sorted_query order_by_timestamp
      exact (List.perm_insertionSort ts_le _).map _
    · rw [hflat]
      exact pairwise_sorted_query ..

/-- Concrete run of C1, the spec scenario: page 2 of size 10 over 25 matching
rows yields exactly rows 11–20 of the timestamp-ordered result. -/
theorem get_sensor_readings_paginates_witness :
    ∃ r : ReadStream,
      get_sensor_readings demoSensors demoDb "temp1" 1 25 (some 2) (some 10)
          = Except.ok r ∧
      r.batches.flatten = demoPage2 ∧
      r.batches.flatten.length ≤ 10 ∧
      List.Pairwise pair_ts_le r.batches.flatten := by
  obtain ⟨r, h1, h2, h3, h4⟩ :=
    (get_sensor_readings_paginates demoSensors demoDb "temp1" 1 25 ⟨7, "temp1"⟩
      (by decide)).1 2 10 (by decide) (by decide)
  exact ⟨r, h1, by rw [h2]; decide, h3, h4⟩

/-- C10: once the sensor name resolves, pagination parameters are tested for
truthiness, not presence: `page_number = 0` with a positive `page_size` makes
the initial offset `0` — the read behaves as page 1 and returns the first
`page_size` ordered rows, not an error — while `page_size = 0` makes the quota
check break out immediately: the empty stream is returned with zero store
fetches. -/
theorem pagination_params_checked_for_truthiness
    (sensors : List SensorInfo) (db : List SensorMeasurement) (sensor_name : String)
    (start_timestamp end_timestamp : Int) (sensor : SensorInfo)
    (hs : get_sensor_by_sensor_name sensors sensor_name = Except.ok (some sensor)) :
    (∀ page_size : Nat, 0 < page_size →
      ∃ r : ReadStream,
        get_sensor_readings sensors db sensor_name start_timestamp end_timestamp
            (some 0) (some page_size) = Except.ok r ∧
        r.batches.flatten
          = (sorted_query db sensor.sensor_uuid start_timestamp
              end_timestamp).take page_size) ∧
    (∀ page_number : Option Nat,
      get_sensor_readings sensors db sensor_name start_timestamp end_timestamp
          page_number (some 0) = Except.ok ⟨[], 0, []⟩) := by
  constructor
  · intro ps hps
    have ht : (truthy (some 0) && truthy (some ps)) = false := by
      simp [truthy]
    have hflat := loop_flatten_paged db sensor.sensor_uuid start_timestamp
      end_timestamp ps (db.length + 1) 0 0 (by
        have := sorted_query_length_le db sensor.sensor_uuid start_timestamp
          end_timestamp
        omega)
    rw [Nat.sub_zero, List.drop_zero] at hflat
    refine ⟨_, ?_, hflat⟩
    unfold get_sensor_readings
    simp [hs, ht]
  · intro page_number
    unfold get_sensor_readings
    simp [hs, truthy, get_sensor_readings_loop]

/-- Concrete run of C10: page 0 of size 3 returns the first three ordered rows
and page size 0 returns the empty stream with zero fetches. -/
theorem pagination_params_checked_for_truthiness_witness :
    (∃ r : ReadStream,
      get_sensor_readings demoSensors demoDb "temp1" 1 25 (some 0) (some 3)
          = Except.ok r ∧
      r.batches.flatten = (sorted_query demoDb 7 1 25).take 3) ∧
    get_sensor_readings demoSensors demoDb "temp1" 1 25 (some 4) (some 0)
        = Except.ok ⟨[], 0, []⟩ :=
  ⟨(pagination_params_checked_for_truthiness demoSensors demoDb "temp1" 1 25
      ⟨7, "temp1"⟩ (by decide)).1 3 (by decide),
   (pagination_params_checked_for_truthiness demoSensors demoDb "temp1" 1 25
      ⟨7, "temp1"⟩ (by decide)).2 (some 4)⟩

end SensorsDataPipeline
